import Mathlib

/-!
Shallow embedding of the modulepp plugin loader (module++, invokr/modulepp).

The embedding follows the C++ sources:
  * `module_implementation_unix.hpp` : `shared_library_unix` (the dynamic
    library handle) becomes `SharedLib` with explicit state passing; the
    OS loader (`dlopen` / `dlsym`) is a parameter `OS`.
  * `module_factory.hpp` : `factory` becomes an association list `Factory`
    with `insert` / `find` / `create`; a `factoryCreator` becomes `Creator`
    (its `create()` result is modelled as an `Option Nat`, `none` standing
    for a null pointer).
  * `module_library.hpp` : `classLoader` becomes functions over `LibMap`
    (`loadLibrary`, `unloadLibrary`, `getCreator`, `getClass`, `hasClass`,
    `isLibraryLoaded`, destructor `destroyLoader`).

Resource lifecycle and callback invocations are recorded as an explicit
`Event` trace so that allocation / deallocation / callback claims are
statable.  Exceptions become an `Option Exc` / `Except Exc` result.
-/

namespace Modulepp

/-- Exception taxonomy, mirroring `module_library_exceptions.hpp` and the
exceptions defined inside `module_library.hpp`.  `user` stands for an
arbitrary exception thrown by plugin callback code. -/
inductive Exc where
  | libraryOverwrite
  | libraryLoad
  | libraryAccess
  | libraryCreate
  | librarySymbolMissing
  | factoryUnknown
  | user
deriving DecidableEq

/-- The operating system dynamic-loading facility (external collaborator):
`canOpen` is whether `dlopen` succeeds on a resolved path, `dlsym` maps a
resolved path and a symbol name to an address (`none` is a NULL result). -/
structure OS where
  canOpen : String → Bool
  dlsym : String → String → Option Nat

/-- State of `shared_library_unix`: the `path` field and the native handle.
An open handle is modelled as `some rp` where `rp` is the resolved path it
was opened on, so symbol lookup can consult the `OS` parameter. -/
structure SharedLib where
  path : String
  handle : Option String
deriving DecidableEq

/-- Platform suffix appended by `shared_library_unix::load`
(`.so` on Linux). -/
def suffix : String := ".so"

/-- The code of `shared_library_unix::load`: throws `libraryOverwriteException`
if the handle is non-null, otherwise assigns `path + suffix()` to the path
field, then calls `dlopen`; on failure throws `libraryLoadException` leaving
the handle null.  (The visibility flags only affect symbol scope and are not
modelled.)  Returns the new state and the exception thrown, if any. -/
def SharedLib.load (os : OS) (lib : SharedLib) (p : String) :
    SharedLib × Option Exc :=
  match lib.handle with
  | some _ => (lib, some Exc.libraryOverwrite)
  | none =>
    let rp := p ++ suffix
    if os.canOpen rp then ({ path := rp, handle := some rp }, none)
    else ({ lib with path := rp }, some Exc.libraryLoad)

/-- The code of `shared_library_unix::unload`: calls `dlclose` if the handle
is non-null and nulls it, otherwise does nothing.  It cannot throw, hence
the plain (exception-free) result type. -/
def SharedLib.unload (lib : SharedLib) : SharedLib :=
  { lib with handle := none }

/-- The code of `shared_library_unix::findSymbol`: throws
`libraryAccessException` if the handle is null, otherwise returns the
`dlsym` result (which is NULL, i.e. `none`, when the symbol is missing). -/
def SharedLib.findSymbol (os : OS) (lib : SharedLib) (name : String) :
    Except Exc (Option Nat) :=
  match lib.handle with
  | some rp => Except.ok (os.dlsym rp name)
  | none => Except.error Exc.libraryAccess

/-- The code of `sharedLibraryBase::hasSymbol`: `findSymbol(name) != NULL`
(propagating `findSymbol`'s exception when the handle is closed). -/
def SharedLib.hasSymbol (os : OS) (lib : SharedLib) (name : String) :
    Except Exc Bool :=
  (SharedLib.findSymbol os lib name).map Option.isSome

/-- The handle-validity invariant from the spec: the handle is either null
(closed) or a handle the OS loader actually produced (open). -/
def handleValid (os : OS) (lib : SharedLib) : Prop :=
  ∀ rp, lib.handle = some rp → os.canOpen rp = true

/-- A `factoryCreator`: `cid` distinguishes distinct creator objects, and
`result` is the pointer its `create()` returns (`none` = null pointer). -/
structure Creator where
  cid : Nat
  result : Option Nat
deriving DecidableEq

/-- The virtual `factoryCreator::create()` call. -/
def Creator.create (c : Creator) : Option Nat := c.result

/-- The `factory` class: its `_factoryMap` (`std::unordered_map` from
identifier to creator pointer), modelled as an association list with unique
keys. -/
abbrev Factory := List (String × Creator)

/-- The code of `factory::insert`: `_factoryMap[id] = c`, i.e. overwrite the
entry if the identifier is present, otherwise add a new entry. -/
def Factory.insert : Factory → String → Creator → Factory
  | [], id, c => [(id, c)]
  | (q, d) :: rest, id, c =>
    if q = id then (id, c) :: rest else (q, d) :: Factory.insert rest id c

/-- The code of `factory::find`: the creator registered under `id`, or the
end marker (`none`). -/
def Factory.find : Factory → String → Option Creator
  | [], _ => none
  | (q, d) :: rest, id => if q = id then some d else Factory.find rest id

/-- The code of `factory::create`: throws `factoryException` when `id` is
not registered, otherwise invokes the registered creator. -/
def Factory.create (f : Factory) (id : String) : Except Exc (Option Nat) :=
  match Factory.find f id with
  | some c => Except.ok (Creator.create c)
  | none => Except.error Exc.factoryUnknown

/-- The code of `factory::size`. -/
def Factory.size (f : Factory) : Nat := f.length

/-- The code of `factory::empty`. -/
def Factory.isEmpty (f : Factory) : Bool := List.isEmpty f

/-- The `classLoader::libraryInfo` record: the owned shared library, the
owned factory, and the reference count (a C++ `int`, hence `Int`). -/
structure LibInfo where
  lib : SharedLib
  fac : Factory
  refCount : Int
deriving DecidableEq

/-- The `classLoader::_map` (`std::unordered_map` from path to
`libraryInfo`), modelled as an association list with unique keys. -/
abbrev LibMap := List (String × LibInfo)

/-- Lookup in the loader map (`_map.find(path)`). -/
def LibMap.find : LibMap → String → Option LibInfo
  | [], _ => none
  | (q, j) :: rest, p => if q = p then some j else LibMap.find rest p

/-- Write-through to the loader map: overwrite the entry at `p` in place if
present (in-place mutation of the found record), otherwise append
(`_map[path] = li` insertion). -/
def LibMap.set : LibMap → String → LibInfo → LibMap
  | [], p, i => [(p, i)]
  | (q, j) :: rest, p, i =>
    if q = p then (p, i) :: rest else (q, j) :: LibMap.set rest p i

/-- Erase the entry at `p` (`_map.erase(it)`). -/
def LibMap.erase : LibMap → String → LibMap
  | [], _ => []
  | (q, j) :: rest, p => if q = p then rest else (q, j) :: LibMap.erase rest p

/-- Resource and callback events, recorded in program order:
allocation / deallocation of the `sharedLibrary` and `Factory` heap objects,
OS-level open/close of the module, and invocations of the plugin callbacks. -/
inductive Event where
  | allocLib
  | allocFac
  | osOpen (rp : String)
  | callInit (rp : String)
  | callBuild (rp : String)
  | callUninit (rp : String)
  | freeFac
  | freeLib
  | osClose (rp : String)
deriving DecidableEq

/-- Behaviour of the external world seen by the loader: the OS loader plus
the plugin callbacks' behaviour, keyed by resolved path.  `initThrows`
tells whether `initializeLibrary()` throws; `buildThrows`, `buildRet` and
`buildFac` give the behaviour of `buildFactory` (whether it throws, the
bool it returns, and the factory contents it builds). -/
structure Env where
  os : OS
  initThrows : String → Bool
  buildThrows : String → Bool
  buildRet : String → Bool
  buildFac : String → Factory

/-- The `try` block of `classLoader::loadLibrary` (the handle is open on
`rp` here, so `hasSymbol` / `findSymbol` cannot throw and reduce to `dlsym`
lookups).  Result: the callback events, and either the exception thrown
inside the block, or `some fac` when `buildFactory` returned `true` with
registry contents `fac`, or `none` when `buildFactory` returned `false`
(in which case the code neither throws nor stores the record). -/
def tryBlock (env : Env) (rp : String) :
    List Event × Except Exc (Option Factory) :=
  let hasInit := (env.os.dlsym rp "initializeLibrary").isSome
  let initEv : List Event := if hasInit then [Event.callInit rp] else []
  if hasInit && env.initThrows rp then (initEv, Except.error Exc.user)
  else if (env.os.dlsym rp "buildFactory").isSome then
    if env.buildThrows rp then
      (initEv ++ [Event.callBuild rp], Except.error Exc.user)
    else if env.buildRet rp then
      (initEv ++ [Event.callBuild rp], Except.ok (some (env.buildFac rp)))
    else
      (initEv ++ [Event.callBuild rp], Except.ok none)
  else (initEv, Except.error Exc.librarySymbolMissing)

/-- The code of `classLoader::loadLibrary`.  If the path is already in the
map, only the reference count is incremented.  Otherwise a fresh
`sharedLibrary` is allocated and `load(path)` is called on it *before* the
`try` block begins: if `load` throws, the exception propagates without
deleting the freshly allocated object (no `freeLib` event).  On success a
fresh `Factory` is allocated and the `try` block runs; an exception caught
there triggers `delete pFactory; delete pLibrary` (the destructor of the
library closes the open handle) and a rethrow; `buildFactory` returning
`true` stores the record with count 1; `buildFactory` returning `false`
falls through with no error, no cleanup and no map change. -/
def loadLibrary (env : Env) (m : LibMap) (p : String) :
    LibMap × Option Exc × List Event :=
  match LibMap.find m p with
  | some info =>
      (LibMap.set m p { info with refCount := info.refCount + 1 }, none, [])
  | none =>
      let res := SharedLib.load env.os { path := "", handle := none } p
      match res.2 with
      | some e => (m, some e, [Event.allocLib])
      | none =>
        let rp := res.1.path
        let tb := tryBlock env rp
        let pre := Event.allocLib :: Event.osOpen rp :: Event.allocFac :: tb.1
        match tb.2 with
        | Except.ok (some fac) =>
            (LibMap.set m p ⟨res.1, fac, 1⟩, none, pre)
        | Except.ok none => (m, none, pre)
        | Except.error e =>
            (m, some e,
             pre ++ [Event.freeFac, Event.osClose rp, Event.freeLib])

/-- The code of `classLoader::unloadLibrary`.  Absent path: no-op.  Present:
decrement the count in place; when it reaches zero, look for the optional
`uninitializeLibrary` symbol (this is a `hasSymbol` call, which throws
`libraryAccessException` if the record's handle were closed), invoke it if
present, then `delete pFactory`, `unload()` the library (closing the
handle) and `delete pLibrary`, and erase the record. -/
def unloadLibrary (env : Env) (m : LibMap) (p : String) :
    LibMap × Option Exc × List Event :=
  match LibMap.find m p with
  | none => (m, none, [])
  | some info =>
    let rc := info.refCount - 1
    if rc = 0 then
      match info.lib.handle with
      | none =>
          (LibMap.set m p { info with refCount := rc }, some Exc.libraryAccess, [])
      | some rp =>
        let hasUninit := (env.os.dlsym rp "uninitializeLibrary").isSome
        (LibMap.erase m p, none,
         (if hasUninit then [Event.callUninit rp] else []) ++
           [Event.freeFac, Event.osClose rp, Event.freeLib])
    else
      (LibMap.set m p { info with refCount := rc }, none, [])

/-- The code of `classLoader::~classLoader`: for every remaining record, in
map order, `unload()` the library (closing the handle if open), `delete
pLibrary`, `delete pFactory`.  No symbol lookup and no callback happens
here. -/
def destroyLoader : LibMap → List Event
  | [] => []
  | pr :: rest =>
    ((match pr.2.lib.handle with
      | some rp => [Event.osClose rp]
      | none => []) ++ [Event.freeLib, Event.freeFac]) ++ destroyLoader rest

/-- The code of `classLoader::getCreator`: iterate the loaded libraries and
return the first factory hit for `className`, or NULL (`none`). -/
def getCreator : LibMap → String → Option Creator
  | [], _ => none
  | (_, info) :: rest, n =>
    match Factory.find info.fac n with
    | some c => some c
    | none => getCreator rest n

/-- The code of `classLoader::getClass`: throws `libraryCreateException`
when `getCreator` returns NULL, otherwise returns `cre->create()` (which
may itself be a null pointer, returned as-is). -/
def getClass (m : LibMap) (n : String) : Except Exc (Option Nat) :=
  match getCreator m n with
  | none => Except.error Exc.libraryCreate
  | some c => Except.ok (Creator.create c)

/-- The code of `classLoader::hasClass`: `getCreator(className) != NULL`. -/
def hasClass (m : LibMap) (n : String) : Bool := (getCreator m n).isSome

/-- The code of `classLoader::getFactory`: the factory of the record at
`path`, or NULL. -/
def getFactory (m : LibMap) (p : String) : Option Factory :=
  (LibMap.find m p).map (fun i => i.fac)

/-- The code of `classLoader::isLibraryLoaded`: `getFactory(path) != NULL`. -/
def isLibraryLoaded (m : LibMap) (p : String) : Bool :=
  (getFactory m p).isSome

/-- Loader operations for reachability statements. -/
inductive Op where
  | load (p : String)
  | unload (p : String)
deriving DecidableEq

/-- One loader call (state part only). -/
def step (env : Env) (m : LibMap) : Op → LibMap
  | Op.load p => (loadLibrary env m p).1
  | Op.unload p => (unloadLibrary env m p).1

/-- The loader state after a sequence of calls starting from the empty
loader. -/
def runOps (env : Env) (ops : List Op) : LibMap :=
  ops.foldl (step env) []

/-- State-projection helpers for readable claim statements. -/
def loadSt (env : Env) (m : LibMap) (p : String) : LibMap :=
  (loadLibrary env m p).1

/-- Trace projection of `loadLibrary`. -/
def loadTr (env : Env) (m : LibMap) (p : String) : List Event :=
  (loadLibrary env m p).2.2

/-- State projection of `unloadLibrary`. -/
def unloadSt (env : Env) (m : LibMap) (p : String) : LibMap :=
  (unloadLibrary env m p).1

/-- Trace projection of `unloadLibrary`. -/
def unloadTr (env : Env) (m : LibMap) (p : String) : List Event :=
  (unloadLibrary env m p).2.2

/-- All records present in the loader map have a positive reference count
and an open handle. -/
def goodMap (m : LibMap) : Prop :=
  ∀ pr ∈ m, 1 ≤ pr.2.refCount ∧ pr.2.lib.handle.isSome = true

/-- A well-behaved plugin world: the OS opens `p.so`, which exposes all
three callback symbols; `buildFactory` returns `true` and registers class
`A` with a creator producing instance `7`. -/
def env3 : Env :=
  { os := { canOpen := fun s => s == "p.so",
            dlsym := fun rp name =>
              if rp == "p.so" &&
                 (name == "buildFactory" || name == "initializeLibrary" ||
                  name == "uninitializeLibrary")
              then some 1 else none },
    initThrows := fun _ => false,
    buildThrows := fun _ => false,
    buildRet := fun _ => false,
    buildFac := fun _ => [("A", ⟨1, some 7⟩)] }

/-- Same world as `env3` but with `buildFactory` returning `true`. -/
def envOk : Env :=
  { env3 with buildRet := fun _ => true }

/-- A world where `plug.so` opens and exposes `buildFactory`, but the build
callback returns `false` (registration refused) without throwing. -/
def envBF : Env :=
  { os := { canOpen := fun s => s == "plug.so",
            dlsym := fun rp name =>
              if rp == "plug.so" && name == "buildFactory" then some 1 else none },
    initThrows := fun _ => false,
    buildThrows := fun _ => false,
    buildRet := fun _ => false,
    buildFac := fun _ => [] }

/-- A world where `plug.so` opens and exposes `buildFactory` and
`uninitializeLibrary`. -/
def envU : Env :=
  { os := { canOpen := fun s => s == "plug.so",
            dlsym := fun rp name =>
              if rp == "plug.so" &&
                 (name == "buildFactory" || name == "uninitializeLibrary")
              then some 1 else none },
    initThrows := fun _ => false,
    buildThrows := fun _ => false,
    buildRet := fun _ => true,
    buildFac := fun _ => [] }

/-- A loader state holding one record for `plug` whose library exposes
`uninitializeLibrary` (under `envU`). -/
def m1ex : LibMap := [("plug", ⟨⟨"plug.so", some "plug.so"⟩, [], 1⟩)]

/-- An OS exposing symbol `sym` at address 3 inside `p.so`. -/
def osEx : OS :=
  { canOpen := fun s => s == "p.so",
    dlsym := fun rp name => if rp == "p.so" && name == "sym" then some 3 else none }

/-- A loader state with one record whose registry maps `A` to a creator
whose `create()` returns a null pointer. -/
def mNull : LibMap := [("plug", ⟨⟨"plug.so", some "plug.so"⟩, [("A", ⟨5, none⟩)], 1⟩)]

/-- Membership after a map write: the element is the written pair or was
already present. -/
lemma LibMap.mem_of_mem_set :
    ∀ (m : LibMap) (p : String) (i : LibInfo) (pr : String × LibInfo),
      pr ∈ LibMap.set m p i → pr = (p, i) ∨ pr ∈ m
  | [], p, i, pr, h => by
      simpa [LibMap.set] using h
  | (q, j) :: rest, p, i, pr, h => by
      by_cases hq : q = p
      · subst hq
        rcases (List.mem_cons).1 (by simpa [LibMap.set] using h) with h1 | h1
        · exact Or.inl h1
        · exact Or.inr (List.mem_cons_of_mem _ h1)
      · rcases (List.mem_cons).1 (by simpa [LibMap.set, hq] using h) with h1 | h1
        · exact Or.inr (by simp [h1])
        · rcases LibMap.mem_of_mem_set rest p i pr h1 with h2 | h2
          · exact Or.inl h2
          · exact Or.inr (List.mem_cons_of_mem _ h2)

/-- Membership after an erase implies membership before. -/
lemma LibMap.mem_of_mem_erase :
    ∀ (m : LibMap) (p : String) (pr : String × LibInfo),
      pr ∈ LibMap.erase m p → pr ∈ m
  | [], _, _, h => by simp [LibMap.erase] at h
  | (q, j) :: rest, p, pr, h => by
      by_cases hq : q = p
      · exact List.mem_cons_of_mem _ (by simpa [LibMap.erase, hq] using h)
      · rcases (List.mem_cons).1 (by simpa [LibMap.erase, hq] using h) with h1 | h1
        · exact List.mem_cons (a := pr) |>.2 (Or.inl h1)
        · exact List.mem_cons_of_mem _ (LibMap.mem_of_mem_erase rest p pr h1)

/-- A successful map lookup yields a member of the map. -/
lemma LibMap.find_mem :
    ∀ (m : LibMap) (p : String) (i : LibInfo),
      LibMap.find m p = some i → (p, i) ∈ m
  | [], _, _, h => by simp [LibMap.find] at h
  | (q, j) :: rest, p, i, h => by
      by_cases hq : q = p
      · subst hq
        have : j = i := by simpa [LibMap.find] using h
        simp [this]
      · exact List.mem_cons_of_mem _
          (LibMap.find_mem rest p i (by simpa [LibMap.find, hq] using h))

/-- Registering a creator makes it the one found under its identifier. -/
lemma Factory.find_insert (f : Factory) (id : String) (c : Creator) :
    Factory.find (Factory.insert f id c) id = some c := by
  induction f with
  | nil => simp [Factory.insert, Factory.find]
  | cons pr rest ih =>
      obtain ⟨q, d⟩ := pr
      by_cases h : q = id
      · simp [Factory.insert, Factory.find, h]
      · simp [Factory.insert, Factory.find, h, ih]

/-- The loader-wide creator lookup misses exactly when every loaded
registry misses. -/
lemma getCreator_eq_none_iff (m : LibMap) (n : String) :
    getCreator m n = none ↔ ∀ pr ∈ m, Factory.find pr.2.fac n = none := by
  induction m with
  | nil => simp [getCreator]
  | cons pr rest ih =>
      obtain ⟨q, info⟩ := pr
      cases hfi : Factory.find info.fac n with
      | some c =>
          simp only [getCreator, hfi]
          constructor
          · intro h; cases h
          · intro h
            have := h (q, info) (List.mem_cons_self _ _)
            rw [hfi] at this
            cases this
      | none => simp [getCreator, hfi, ih]

/-- The loader-wide creator lookup returns the hit of the first registry
containing the identifier, in map order. -/
lemma getCreator_first (n : String) :
    ∀ (pre : LibMap) (q : String) (info : LibInfo) (post : LibMap) (c : Creator),
      (∀ pr ∈ pre, Factory.find pr.2.fac n = none) →
      Factory.find info.fac n = some c →
      getCreator (pre ++ (q, info) :: post) n = some c
  | [], q, info, post, c, _, hc => by simp [getCreator, hc]
  | pr :: rest, q, info, post, c, hpre, hc => by
      obtain ⟨r, j⟩ := pr
      have h0 : Factory.find j.fac n = none := hpre (r, j) (List.mem_cons_self _ _)
      have ih := getCreator_first n rest q info post c
        (fun x hx => hpre x (List.mem_cons_of_mem _ hx)) hc
      simp [getCreator, h0, ih]

/-- Loading a fresh path in a well-behaved world: the record is stored with
count 1, no exception is raised, and the trace records allocation, the OS
open, and the two callback invocations. -/
lemma loadLibrary_fresh (env : Env) (m : LibMap) (p : String)
    (hm : LibMap.find m p = none)
    (h1 : env.os.canOpen (p ++ suffix) = true)
    (h2 : (env.os.dlsym (p ++ suffix) "buildFactory").isSome = true)
    (h3 : env.initThrows (p ++ suffix) = false)
    (h4 : env.buildThrows (p ++ suffix) = false)
    (h5 : env.buildRet (p ++ suffix) = true)
    (h7 : (env.os.dlsym (p ++ suffix) "initializeLibrary").isSome = true) :
    loadLibrary env m p =
      (LibMap.set m p
        ⟨⟨p ++ suffix, some (p ++ suffix)⟩, env.buildFac (p ++ suffix), 1⟩,
       none,
       [Event.allocLib, Event.osOpen (p ++ suffix), Event.allocFac,
        Event.callInit (p ++ suffix), Event.callBuild (p ++ suffix)]) := by
  simp [loadLibrary, SharedLib.load, tryBlock, hm, h1, h2, h3, h4, h5, h7]

/-- Loading an already-loaded path only increments the reference count. -/
lemma loadLibrary_again (env : Env) (m : LibMap) (p : String) (info : LibInfo)
    (hm : LibMap.find m p = some info) :
    loadLibrary env m p =
      (LibMap.set m p { info with refCount := info.refCount + 1 }, none, []) := by
  simp [loadLibrary, hm]

/-- Unloading when the decremented count stays nonzero only writes the new
count back. -/
lemma unloadLibrary_dec (env : Env) (m : LibMap) (p : String) (info : LibInfo)
    (hm : LibMap.find m p = some info) (hrc : info.refCount - 1 ≠ 0) :
    unloadLibrary env m p =
      (LibMap.set m p { info with refCount := info.refCount - 1 }, none, []) := by
  simp [unloadLibrary, hm, hrc]

/-- Unloading at count 1 with an exposed teardown symbol: the callback
fires, then the registry is freed, the handle closed, the object freed and
the record erased. -/
lemma unloadLibrary_zero (env : Env) (m : LibMap) (p : String) (info : LibInfo)
    (rp : String)
    (hm : LibMap.find m p = some info) (hrc : info.refCount = 1)
    (hh : info.lib.handle = some rp)
    (hu : (env.os.dlsym rp "uninitializeLibrary").isSome = true) :
    unloadLibrary env m p =
      (LibMap.erase m p, none,
       [Event.callUninit rp, Event.freeFac, Event.osClose rp, Event.freeLib]) := by
  simp [unloadLibrary, hm, hrc, hh, hu]

/-- `loadLibrary` preserves the record invariant. -/
lemma goodMap_load (env : Env) (m : LibMap) (p : String) (hg : goodMap m) :
    goodMap (loadLibrary env m p).1 := by
  rcases hf : LibMap.find m p with _ | info
  · simp only [loadLibrary, hf]
    rcases hc : (SharedLib.load env.os { path := "", handle := none } p).2 with _ | e
    · rcases hb : (tryBlock env (SharedLib.load env.os { path := "", handle := none } p).1.path).2
        with e | fo
      · simpa using hg
      · rcases fo with _ | fac
        · simpa using hg
        · intro pr hpr
          rcases LibMap.mem_of_mem_set _ _ _ _ (by simpa using hpr) with h | h
          · subst h
            refine ⟨by norm_num, ?_⟩
            have hcanOpen : env.os.canOpen (p ++ suffix) = true := by
              by_contra hno
              simp [SharedLib.load, Bool.not_eq_true] at hno
              simp [SharedLib.load, hno] at hc
            simp [SharedLib.load, hcanOpen]
          · exact hg pr h
    · simpa using hg
  · simp only [loadLibrary, hf]
    intro pr hpr
    rcases LibMap.mem_of_mem_set _ _ _ _ (by simpa using hpr) with h | h
    · subst h
      have hi := hg (p, info) (LibMap.find_mem m p info hf)
      have hi1 : 1 ≤ info.refCount := hi.1
      constructor
      · show (1 : Int) ≤ info.refCount + 1
        omega
      · exact hi.2
    · exact hg pr h

/-- `unloadLibrary` preserves the record invariant. -/
lemma goodMap_unload (env : Env) (m : LibMap) (p : String) (hg : goodMap m) :
    goodMap (unloadLibrary env m p).1 := by
  rcases hf : LibMap.find m p with _ | info
  · simpa [unloadLibrary, hf] using hg
  · have hi := hg (p, info) (LibMap.find_mem m p info hf)
    by_cases hrc : info.refCount - 1 = 0
    · rcases hh : info.lib.handle with _ | rp
      · exact absurd hi.2 (by simp [hh])
      · simp only [unloadLibrary, hf, hrc, if_pos, hh]
        intro pr hpr
        exact hg pr (LibMap.mem_of_mem_erase _ _ _ (by simpa using hpr))
    · simp only [unloadLibrary, hf, if_neg hrc]
      intro pr hpr
      rcases LibMap.mem_of_mem_set _ _ _ _ (by simpa using hpr) with h | h
      · subst h
        have hi1 : 1 ≤ info.refCount := hi.1
        constructor
        · show (1 : Int) ≤ info.refCount - 1
          omega
        · exact hi.2
      · exact hg pr h

/-- Every loader call preserves the record invariant. -/
lemma goodMap_step (env : Env) (m : LibMap) (o : Op) (hg : goodMap m) :
    goodMap (step env m o) := by
  cases o with
  | load p => exact goodMap_load env m p hg
  | unload p => exact goodMap_unload env m p hg

/-- Every state reachable from the empty loader satisfies the record
invariant. -/
lemma goodMap_runOps (env : Env) (ops : List Op) : goodMap (runOps env ops) := by
  have main : ∀ (l : List Op) (m : LibMap), goodMap m →
      goodMap (l.foldl (step env) m) := by
    intro l
    induction l with
    | nil => intro m hm; simpa using hm
    | cons o rest ih =>
        intro m hm
        exact ih _ (goodMap_step env m o hm)
  exact main ops [] (by intro pr hpr; simp at hpr)

/-- C1: the claim fails on the code.  In `envBF` the OS opens `plug.so` and
the library exposes `buildFactory`, but the build callback returns `false`
without throwing.  `loadLibrary` then surfaces no error (`none`), the map
is unchanged (`isLibraryLoaded` is false), yet the trace shows the OS
handle was opened and the registry allocated while no `freeFac`, `osClose`
or `freeLib` ever happens: the freshly allocated registry and the open
handle leak, contradicting the claimed full rollback with a surfaced
error. -/
theorem c1_build_false_no_rollback :
    (loadLibrary envBF [] "plug").2.1 = none ∧
    (loadLibrary envBF [] "plug").1 = [] ∧
    isLibraryLoaded (loadLibrary envBF [] "plug").1 "plug" = false ∧
    Event.osOpen "plug.so" ∈ (loadLibrary envBF [] "plug").2.2 ∧
    Event.allocFac ∈ (loadLibrary envBF [] "plug").2.2 ∧
    Event.osClose "plug.so" ∉ (loadLibrary envBF [] "plug").2.2 ∧
    Event.freeFac ∉ (loadLibrary envBF [] "plug").2.2 ∧
    Event.freeLib ∉ (loadLibrary envBF [] "plug").2.2 := by decide

/-- C2, counterexample: on the state `m1ex` (one remaining record whose
library exposes `uninitializeLibrary` under `envU`), `unloadLibrary`
reaching count zero invokes the teardown callback, but destroying the
loader does not — the destructor does not perform the same teardown
sequence. -/
theorem c2_destructor_counterexample :
    Event.callUninit "plug.so" ∈ (unloadLibrary envU m1ex "plug").2.2 ∧
    Event.callUninit "plug.so" ∉ destroyLoader m1ex := by decide

/-- C2, amended: destroying the `classLoader` closes every remaining
record's open handle and frees each record's library object and registry
(one `freeLib` and one `freeFac` per record), but it never invokes the
teardown callback `uninitializeLibrary` — so the destructor does not
perform the same teardown sequence as `unloadLibrary` reaching zero. -/
theorem c2_destructor_teardown (m : LibMap) :
    (∀ pr ∈ m, ∀ rp, pr.2.lib.handle = some rp →
      Event.osClose rp ∈ destroyLoader m) ∧
    (destroyLoader m).count Event.freeLib = m.length ∧
    (destroyLoader m).count Event.freeFac = m.length ∧
    (∀ rp, Event.callUninit rp ∉ destroyLoader m) := by
  induction m with
  | nil => simp [destroyLoader]
  | cons pr rest ih =>
      obtain ⟨q, info⟩ := pr
      obtain ⟨ih1, ih2, ih3, ih4⟩ := ih
      refine ⟨?_, ?_, ?_, ?_⟩
      · intro x hx rp hrp
        rcases (List.mem_cons).1 hx with h | h
        · subst h
          simp only at hrp
          simp [destroyLoader, hrp]
        · have hrec := ih1 x h rp hrp
          cases hh : info.lib.handle <;> simp [destroyLoader, hh, hrec]
      · cases hh : info.lib.handle <;>
          simp [destroyLoader, hh, List.count_append, ih2, List.count_cons,
                beq_iff_eq]
      · cases hh : info.lib.handle <;>
          simp [destroyLoader, hh, List.count_append, ih3, List.count_cons,
                beq_iff_eq]
      · intro rp
        cases hh : info.lib.handle <;> simp [destroyLoader, hh, ih4 rp]

/-- C2 witness: instantiating the amended destructor theorem on `m1ex`,
whose single record has its handle open on `plug.so`. -/
theorem c2_destructor_teardown_witness :
    Event.osClose "plug.so" ∈ destroyLoader m1ex :=
  (c2_destructor_teardown m1ex).1
    ("plug", ⟨⟨"plug.so", some "plug.so"⟩, [], 1⟩) (by decide) "plug.so" rfl

/-- C4: `findSymbol` raises `libraryAccessException` exactly when the
handle is not open; on an open handle it returns the `dlsym` result,
which is `none` (a null address) for a missing symbol and the resolved
address otherwise — never an exception. -/
theorem c4_findSymbol_access (os : OS) (lib : SharedLib) (name : String) :
    (SharedLib.findSymbol os lib name = Except.error Exc.libraryAccess ↔
      lib.handle = none) ∧
    (∀ rp, lib.handle = some rp →
      SharedLib.findSymbol os lib name = Except.ok (os.dlsym rp name)) := by
  cases h : lib.handle <;> simp [SharedLib.findSymbol, h]

/-- C4 witness: on a handle open on `p.so`, `findSymbol` returns the
`dlsym` result. -/
theorem c4_findSymbol_access_witness :
    SharedLib.findSymbol osEx ⟨"p.so", some "p.so"⟩ "sym" =
      Except.ok (osEx.dlsym "p.so" "sym") :=
  (c4_findSymbol_access osEx ⟨"p.so", some "p.so"⟩ "sym").2 "p.so" rfl

/-- C5: `unload` (close) is idempotent — it leaves the handle closed, is a
no-op on an already closed handle, and (being a total function into the
plain state type) never raises; and `unloadLibrary` on a path absent from
the loader map is a no-op that raises nothing and leaves the state
unchanged. -/
theorem c5_idempotent_close (lib : SharedLib) (env : Env) (m : LibMap)
    (p : String) :
    (SharedLib.unload lib).handle = none ∧
    (lib.handle = none → SharedLib.unload lib = lib) ∧
    SharedLib.unload (SharedLib.unload lib) = SharedLib.unload lib ∧
    (LibMap.find m p = none → unloadLibrary env m p = (m, none, [])) := by
  refine ⟨rfl, ?_, rfl, ?_⟩
  · intro h
    cases lib with
    | mk path handle => simp only at h; simp [SharedLib.unload, h]
  · intro h
    simp [unloadLibrary, h]

/-- C5 witness: closing an already-closed handle and unloading an absent
path are both no-ops. -/
theorem c5_idempotent_close_witness :
    SharedLib.unload ⟨"x", none⟩ = ⟨"x", none⟩ ∧
    unloadLibrary envU [] "q" = ([], none, []) :=
  ⟨(c5_idempotent_close ⟨"x", none⟩ envU [] "q").2.1 rfl,
   (c5_idempotent_close ⟨"x", none⟩ envU [] "q").2.2.2 rfl⟩

/-- C6: `load` on an already-open handle raises
`libraryOverwriteException` and leaves the whole state (hence the open
handle) intact; on a closed handle with the OS loader rejecting the
resolved path it raises `libraryLoadException` and leaves the handle
closed (only the path field is written); and both `load` and `unload`
preserve the invariant that the handle is either null or an OS-produced
handle. -/
theorem c6_no_double_open (os : OS) (lib : SharedLib) (p : String) :
    (∀ rp, lib.handle = some rp →
      SharedLib.load os lib p = (lib, some Exc.libraryOverwrite)) ∧
    (lib.handle = none → os.canOpen (p ++ suffix) = false →
      SharedLib.load os lib p =
        ({ lib with path := p ++ suffix }, some Exc.libraryLoad)) ∧
    (handleValid os lib → handleValid os (SharedLib.load os lib p).1) ∧
    handleValid os (SharedLib.unload lib) := by
  refine ⟨?_, ?_, ?_, ?_⟩
  · intro rp h
    simp [SharedLib.load, h]
  · intro h hc
    simp [SharedLib.load, h, hc]
  · intro hv
    cases h : lib.handle with
    | some rp => simp [SharedLib.load, h]; exact hv
    | none =>
        by_cases hc : os.canOpen (p ++ suffix)
        · simp [SharedLib.load, h, hc]
          intro rp hrp
          cases hrp
          exact hc
        · simp [SharedLib.load, h, hc]
          intro rp hrp
          exact absurd hrp (by simp [h])
  · intro rp h
    cases h

/-- C6 witness: loading on an already-open handle fails with the overwrite
exception and leaves the handle as it was. -/
theorem c6_no_double_open_witness :
    SharedLib.load osEx ⟨"p.so", some "p.so"⟩ "q" =
      (⟨"p.so", some "p.so"⟩, some Exc.libraryOverwrite) :=
  (c6_no_double_open osEx ⟨"p.so", some "p.so"⟩ "q").1 "p.so" rfl

/-- C7: re-registering under an existing identifier raises no error (the
operation is total) and the last write wins — `find` yields the second
creator and `create` invokes it. -/
theorem c7_insert_last_write_wins (f : Factory) (id : String)
    (c1 c2 : Creator) :
    Factory.find (Factory.insert (Factory.insert f id c1) id c2) id =
      some c2 ∧
    Factory.create (Factory.insert (Factory.insert f id c1) id c2) id =
      Except.ok (Creator.create c2) := by
  refine ⟨Factory.find_insert _ id c2, ?_⟩
  simp [Factory.create, Factory.find_insert]

/-- C8: the loader-level `getClass` raises `libraryCreateException`
exactly when no currently loaded registry contains the identifier;
otherwise it returns the result of the first matching registry's creator
(in map order, given that all earlier registries miss); and `hasClass` is
true exactly when the same lookup finds a creator (no instance is
constructed — its result is just a Bool). -/
theorem c8_getClass_spec (m : LibMap) (n : String) :
    (getClass m n = Except.error Exc.libraryCreate ↔
      ∀ pr ∈ m, Factory.find pr.2.fac n = none) ∧
    (∀ c, getCreator m n = some c →
      getClass m n = Except.ok (Creator.create c)) ∧
    (∀ pre q info post c, m = pre ++ (q, info) :: post →
      (∀ pr ∈ pre, Factory.find pr.2.fac n = none) →
      Factory.find info.fac n = some c →
      getClass m n = Except.ok (Creator.create c)) ∧
    (hasClass m n = true ↔ ∃ c, getCreator m n = some c) := by
  refine ⟨?_, ?_, ?_, ?_⟩
  · rw [← getCreator_eq_none_iff]
    cases h : getCreator m n <;> simp [getClass, h]
  · intro c hc
    simp [getClass, hc]
  · intro pre q info post c hm hpre hc
    subst hm
    simp [getClass, getCreator_first n pre q info post c hpre hc]
  · simp [hasClass, Option.isSome_iff_exists]

/-- C8 witness: on `mNull`, whose only registry registers `A`, the lookup
for `A` succeeds while the lookup for `B` raises
`libraryCreateException`. -/
theorem c8_getClass_spec_witness :
    getClass mNull "B" = Except.error Exc.libraryCreate ∧
    getClass mNull "A" = Except.ok (Creator.create ⟨5, none⟩) :=
  ⟨(c8_getClass_spec mNull "B").1.2 (by decide),
   (c8_getClass_spec mNull "A").2.1 ⟨5, none⟩ (by decide)⟩

/-- C9: in every loader state reachable from the empty loader by any
sequence of `loadLibrary` / `unloadLibrary` calls, every record present in
the map has reference count at least 1 — no record with count 0 or below
is ever observable. -/
theorem c9_refcount_invariant (env : Env) (ops : List Op)
    (pr : String × LibInfo) (h : pr ∈ runOps env ops) :
    1 ≤ pr.2.refCount :=
  (goodMap_runOps env ops pr h).1

/-- C9 witness: after two loads of `p` the reachable state holds the
record with count 2, which the invariant bounds below by 1. -/
theorem c9_refcount_invariant_witness :
    ("p", (⟨⟨"p.so", some "p.so"⟩, [("A", ⟨1, some 7⟩)], 2⟩ : LibInfo)) ∈
        runOps envOk [Op.load "p", Op.load "p"] ∧
    (1 : Int) ≤
      (("p", (⟨⟨"p.so", some "p.so"⟩, [("A", ⟨1, some 7⟩)], 2⟩ : LibInfo))).2.refCount :=
  ⟨by decide,
   c9_refcount_invariant envOk [Op.load "p", Op.load "p"]
     ("p", ⟨⟨"p.so", some "p.so"⟩, [("A", ⟨1, some 7⟩)], 2⟩) (by decide)⟩

/-- C10: when a registered creator's `create()` returns a null pointer,
`getClass` passes that null pointer through as a normal result with no
exception; `getClass` raises only `libraryCreateException`, and only when
no creator is registered under the name. -/
theorem c10_null_creator (m : LibMap) (n : String) :
    (∀ c, getCreator m n = some c → Creator.create c = none →
      getClass m n = Except.ok none) ∧
    (∀ e, getClass m n = Except.error e →
      getCreator m n = none ∧ e = Exc.libraryCreate) := by
  constructor
  · intro c hc hnull
    simp [getClass, hc, hnull]
  · intro e he
    cases h : getCreator m n with
    | none =>
        refine ⟨rfl, ?_⟩
        simp [getClass, h] at he
        exact he.symm
    | some c => simp [getClass, h] at he

/-- C10 witness: `mNull` registers `A` with a null-returning creator, and
`getClass` returns the null pointer without raising. -/
theorem c10_null_creator_witness :
    getClass mNull "A" = Except.ok none :=
  (c10_null_creator mNull "A").1 ⟨5, none⟩ (by decide) rfl

/-- C3: for a valid plugin path (the OS opens it, it exposes all three
callback symbols, the init callback does not throw and the build callback
returns true), `loadLibrary(P); loadLibrary(P); unloadLibrary(P)` leaves
`isLibraryLoaded(P)` true, a second `unloadLibrary(P)` leaves it false,
the teardown callback fires exactly once — on the count-to-zero transition
(the fourth call) and not earlier — and the initialization callback is
invoked exactly once, on the first load; the reference-count-only re-load
emits no callbacks at all. -/
theorem c3_reference_counting (env : Env) (p : String)
    (h1 : env.os.canOpen (p ++ suffix) = true)
    (h2 : (env.os.dlsym (p ++ suffix) "buildFactory").isSome = true)
    (h3 : env.initThrows (p ++ suffix) = false)
    (h4 : env.buildThrows (p ++ suffix) = false)
    (h5 : env.buildRet (p ++ suffix) = true)
    (h6 : (env.os.dlsym (p ++ suffix) "uninitializeLibrary").isSome = true)
    (h7 : (env.os.dlsym (p ++ suffix) "initializeLibrary").isSome = true) :
    isLibraryLoaded (unloadSt env (loadSt env (loadSt env [] p) p) p) p
      = true ∧
    isLibraryLoaded
      (unloadSt env (unloadSt env (loadSt env (loadSt env [] p) p) p) p) p
      = false ∧
    (unloadTr env (unloadSt env (loadSt env (loadSt env [] p) p) p) p).count
      (Event.callUninit (p ++ suffix)) = 1 ∧
    (loadTr env [] p ++ loadTr env (loadSt env [] p) p ++
      unloadTr env (loadSt env (loadSt env [] p) p) p).count
      (Event.callUninit (p ++ suffix)) = 0 ∧
    (loadTr env [] p).count (Event.callInit (p ++ suffix)) = 1 ∧
    loadTr env (loadSt env [] p) p = [] := by
  have e1 := loadLibrary_fresh env [] p rfl h1 h2 h3 h4 h5 h7
  have s1 : loadSt env [] p =
      [(p, ⟨⟨p ++ suffix, some (p ++ suffix)⟩, env.buildFac (p ++ suffix), 1⟩)] := by
    simp only [loadSt, e1]
    rfl
  have t1 : loadTr env [] p =
      [Event.allocLib, Event.osOpen (p ++ suffix), Event.allocFac,
       Event.callInit (p ++ suffix), Event.callBuild (p ++ suffix)] := by
    simp only [loadTr, e1]
  have e2 : loadLibrary env
      [(p, ⟨⟨p ++ suffix, some (p ++ suffix)⟩, env.buildFac (p ++ suffix), 1⟩)] p =
      ([(p, ⟨⟨p ++ suffix, some (p ++ suffix)⟩, env.buildFac (p ++ suffix), 2⟩)],
       none, []) := by
    rw [loadLibrary_again env _ p
      ⟨⟨p ++ suffix, some (p ++ suffix)⟩, env.buildFac (p ++ suffix), 1⟩
      (by simp [LibMap.find])]
    norm_num [LibMap.set]
  have e3 : unloadLibrary env
      [(p, ⟨⟨p ++ suffix, some (p ++ suffix)⟩, env.buildFac (p ++ suffix), 2⟩)] p =
      ([(p, ⟨⟨p ++ suffix, some (p ++ suffix)⟩, env.buildFac (p ++ suffix), 1⟩)],
       none, []) := by
    rw [unloadLibrary_dec env _ p
      ⟨⟨p ++ suffix, some (p ++ suffix)⟩, env.buildFac (p ++ suffix), 2⟩
      (by simp [LibMap.find]) (by norm_num)]
    norm_num [LibMap.set]
  have e4 : unloadLibrary env
      [(p, ⟨⟨p ++ suffix, some (p ++ suffix)⟩, env.buildFac (p ++ suffix), 1⟩)] p =
      ([], none,
       [Event.callUninit (p ++ suffix), Event.freeFac,
        Event.osClose (p ++ suffix), Event.freeLib]) := by
    rw [unloadLibrary_zero env _ p
      ⟨⟨p ++ suffix, some (p ++ suffix)⟩, env.buildFac (p ++ suffix), 1⟩
      (p ++ suffix) (by simp [LibMap.find]) rfl rfl h6]
    simp [LibMap.erase]
  have s2 : loadSt env
      [(p, ⟨⟨p ++ suffix, some (p ++ suffix)⟩, env.buildFac (p ++ suffix), 1⟩)] p =
      [(p, ⟨⟨p ++ suffix, some (p ++ suffix)⟩, env.buildFac (p ++ suffix), 2⟩)] := by
    simp only [loadSt, e2]
  have t2 : loadTr env
      [(p, ⟨⟨p ++ suffix, some (p ++ suffix)⟩, env.buildFac (p ++ suffix), 1⟩)] p =
      [] := by
    simp only [loadTr, e2]
  have s3 : unloadSt env
      [(p, ⟨⟨p ++ suffix, some (p ++ suffix)⟩, env.buildFac (p ++ suffix), 2⟩)] p =
      [(p, ⟨⟨p ++ suffix, some (p ++ suffix)⟩, env.buildFac (p ++ suffix), 1⟩)] := by
    simp only [unloadSt, e3]
  have t3 : unloadTr env
      [(p, ⟨⟨p ++ suffix, some (p ++ suffix)⟩, env.buildFac (p ++ suffix), 2⟩)] p =
      [] := by
    simp only [unloadTr, e3]
  have s4 : unloadSt env
      [(p, ⟨⟨p ++ suffix, some (p ++ suffix)⟩, env.buildFac (p ++ suffix), 1⟩)] p =
      [] := by
    simp only [unloadSt, e4]
  have t4 : unloadTr env
      [(p, ⟨⟨p ++ suffix, some (p ++ suffix)⟩, env.buildFac (p ++ suffix), 1⟩)] p =
      [Event.callUninit (p ++ suffix), Event.freeFac,
       Event.osClose (p ++ suffix), Event.freeLib] := by
    simp only [unloadTr, e4]
  refine ⟨?_, ?_, ?_, ?_, ?_, ?_⟩
  · rw [s1, s2, s3]
    simp [isLibraryLoaded, getFactory, LibMap.find]
  · rw [s1, s2, s3, s4]
    simp [isLibraryLoaded, getFactory, LibMap.find]
  · rw [s1, s2, s3, t4]
    simp [List.count_cons, beq_iff_eq]
  · rw [s1, t1, t2, s2, t3]
    simp [List.count_cons, beq_iff_eq]
  · rw [t1]
    simp [List.count_cons, beq_iff_eq]
  · rw [s1, t2]

/-- C3 witness: in the concrete world `envOk`, `load; load; unload` on `p`
leaves the library loaded and a further `unload` leaves it unloaded. -/
theorem c3_reference_counting_witness :
    isLibraryLoaded (unloadSt envOk (loadSt envOk (loadSt envOk [] "p") "p") "p") "p"
      = true ∧
    isLibraryLoaded
      (unloadSt envOk
        (unloadSt envOk (loadSt envOk (loadSt envOk [] "p") "p") "p") "p") "p"
      = false :=
  ⟨(c3_reference_counting envOk "p" (by decide) (by decide) (by decide)
      (by decide) (by decide) (by decide) (by decide)).1,
   (c3_reference_counting envOk "p" (by decide) (by decide) (by decide)
      (by decide) (by decide) (by decide) (by decide)).2.1⟩

end Modulepp
